import Mathlib

/-!
# Verification of the wildfire / rainfall analysis pipeline

Shallow embedding of the three data-processing components of the
repository:

* `process_wildfire_data`  (src/process_wildfire_data.py) — normalises raw
  CAL FIRE incident rows to a monthly per-county summary;
* `process_and_aggregate_rainfall` (src/process_rainfall_data.py) —
  normalises scraped CDEC water-year precipitation tables to a monthly
  per-county aggregate;
* `merge_datasets` (src/map_wildfireData_to_rainfallData.py) — outer-joins
  the two aggregates on (county, year, month).

Machine reals are modelled by `ℚ`; a pandas `NaN` (missing or unparseable
cell) is modelled by `Option`.  DataFrame row order is not modelled where
pandas sorts group keys: each groupby result is produced as one row per
distinct key (`List.dedup`), which preserves exactly the key set and the
per-key aggregate values.
-/

/-! ## Python string primitives used by the pipeline -/

/-- Python `str.strip()` (on the whitespace that occurs in this data):
drop leading and trailing whitespace. -/
def pyStrip (s : String) : String :=
  ⟨((s.data.dropWhile Char.isWhitespace).reverse.dropWhile Char.isWhitespace).reverse⟩

/-- Python `str.lower()`. -/
def pyLower (s : String) : String := ⟨s.data.map Char.toLower⟩

/-- Python `str.split(',')`: split at every comma, keeping empty parts
(an input without a comma yields the one-element list of itself). -/
def splitCommaAux : List Char → List Char → List (List Char)
  | [], acc => [acc.reverse]
  | c :: rest, acc =>
    if c = ',' then acc.reverse :: splitCommaAux rest []
    else splitCommaAux rest (c :: acc)

/-- Python `str.split(',')`. -/
def pySplitComma (s : String) : List String :=
  (splitCommaAux s.data []).map fun l => ⟨l⟩

/-- Replace every (non-overlapping, leftmost-first) occurrence of `pat`
by `rep`.  The fuel argument is instantiated with the length of the
text, which bounds the recursion depth. -/
def replaceFuel (pat rep : List Char) : Nat → List Char → List Char
  | _, [] => []
  | 0, l => l
  | fuel + 1, c :: rest =>
    if pat.isPrefixOf (c :: rest) && !pat.isEmpty then
      rep ++ replaceFuel pat rep fuel ((c :: rest).drop pat.length)
    else c :: replaceFuel pat rep fuel rest

/-- Python `str.replace(pat, rep)` for the non-empty patterns the
pipeline uses. -/
def pyReplace (s pat rep : String) : String :=
  ⟨replaceFuel pat.data rep.data s.data.length s.data⟩

/-- Core of Python `str.title()`: a letter following a non-letter is
upper-cased, a letter following a letter is lower-cased. -/
def pyTitleAux : Bool → List Char → List Char
  | _, [] => []
  | prevAlpha, c :: cs =>
    if c.isAlpha then
      (if prevAlpha then c.toLower else c.toUpper) :: pyTitleAux true cs
    else
      c :: pyTitleAux false cs

/-- Python `str.title()`. -/
def pyTitle (s : String) : String := ⟨pyTitleAux false s.data⟩

/-- The composition `str.strip()` then `str.title()` — the county canonicalisation applied in
`merge_datasets` (and to the wildfire county column). -/
def canonCounty (s : String) : String := pyTitle (pyStrip s)

/-! ## Wildfire processing (src/process_wildfire_data.py)

A raw incident row after the two parsing steps the script performs:
`pd.to_numeric(df.incident_acres_burned, errors='coerce')` yields
`Option ℚ` (`none` = NaN), and
`pd.to_datetime(df.incident_dateonly_created, errors='coerce')` yields
`Option (Int × Fin 12)` — a parsed datetime always has a month in 1..12,
represented here as year and (month − 1). -/

structure RawIncident where
  incident_county : Option String
  incident_dateonly_created : Option (Int × Fin 12)
  incident_acres_burned : Option ℚ
  incident_name : Option String
deriving Repr, DecidableEq

/-- One row of the long frame after `dropna(subset=[acres, county])`,
`str.split(',')` + `explode` + `str.strip()` on the county,
`dropna` on the parsed date, extraction of year and month, and
`df.county = df.incident_county.str.strip().str.title()`. -/
structure FireRow where
  county : String
  year : Int
  month : Nat
  name : Option String
  acres : ℚ
deriving Repr, DecidableEq

/-- Rows that survive the dropna steps, exploded per listed county.
A row whose acres, county or date is NaN is dropped; otherwise the
comma-separated county field produces one copy of the row per part, each
carrying the full, unscaled acres value. -/
def fireRows (raw : List RawIncident) : List FireRow :=
  raw.flatMap fun r =>
    match r.incident_acres_burned, r.incident_county,
          r.incident_dateonly_created with
    | some a, some cs, some (y, m) =>
      ((pySplitComma cs).map pyStrip).map fun c =>
        { county := canonCounty c, year := y, month := m.val + 1,
          name := r.incident_name, acres := a }
    | _, _, _ => []

structure FireKey where
  county : String
  year : Int
  month : Nat
deriving Repr, DecidableEq

def fireKey (r : FireRow) : FireKey := ⟨r.county, r.year, r.month⟩

/-- Monthly per-county summary row (`wildfire_monthly.csv`). -/
structure FireAgg where
  county : String
  year : Int
  month : Nat
  incident_count : Nat
  acres_burned : ℚ
deriving Repr, DecidableEq

/-- The aggregation `('incident_name', 'count')`: pandas `count` counts the non-null
values of the column, so rows with a missing `incident_name` do not
count. -/
def countNamed (rs : List FireRow) : Nat :=
  (rs.filter fun r => r.name.isSome).length

/-- The aggregation `('incident_acres_burned', 'sum')`. -/
def sumAcres (rs : List FireRow) : ℚ := (rs.map FireRow.acres).sum

/-- The aggregate row `groupby(['county','year','month'])` produces for
key `k`. -/
def fireAggFor (rows : List FireRow) (k : FireKey) : FireAgg :=
  { county := k.county, year := k.year, month := k.month,
    incident_count := countNamed (rows.filter fun r => fireKey r = k),
    acres_burned := sumAcres (rows.filter fun r => fireKey r = k) }

/-- Function `process_wildfire_data`: the monthly summary, one row per distinct
(county, year, month) key of the exploded frame. -/
def process_wildfire_data (raw : List RawIncident) : List FireAgg :=
  (((fireRows raw).map fireKey).dedup).map (fireAggFor (fireRows raw))

/-! ## Rainfall processing (src/process_rainfall_data.py) -/

/-- One row of a scraped file `rainfall_raw_<year>.csv`: a station id, a
station name, and the twelve fiscal-month columns.  `pd.to_numeric(...,
errors='coerce')` turns each cell into `Option ℚ` (`none` = NaN or
unparseable). -/
structure RawReading where
  station_id : String
  station_name : String
  oct : Option ℚ
  nov : Option ℚ
  dec : Option ℚ
  jan : Option ℚ
  feb : Option ℚ
  mar : Option ℚ
  apr : Option ℚ
  may : Option ℚ
  jun : Option ℚ
  jul : Option ℚ
  aug : Option ℚ
  sep : Option ℚ
deriving Repr, DecidableEq

/-- The fiscal-month value columns of a reading, in the file's column
order (the `value_vars` of the melt). -/
def monthColumns (r : RawReading) : List (String × Option ℚ) :=
  [("oct", r.oct), ("nov", r.nov), ("dec", r.dec), ("jan", r.jan),
   ("feb", r.feb), ("mar", r.mar), ("apr", r.apr), ("may", r.may),
   ("jun", r.jun), ("jul", r.jul), ("aug", r.aug), ("sep", r.sep)]

/-- The `month_map` dictionary: fiscal-month column name to calendar month number. -/
def monthMap : String → Option Nat
  | "oct" => some 10
  | "nov" => some 11
  | "dec" => some 12
  | "jan" => some 1
  | "feb" => some 2
  | "mar" => some 3
  | "apr" => some 4
  | "may" => some 5
  | "jun" => some 6
  | "jul" => some 7
  | "aug" => some 8
  | "sep" => some 9
  | _ => none

/-- One row of the melted long frame, after `dropna(subset=['precip_in'])`
and the water-year-to-calendar-year conversion. -/
structure LongRow where
  station_id : String
  station_name : String
  year : Int
  month : Nat
  precip_in : ℚ
deriving Repr, DecidableEq

/-- Melt one raw file of water year `wy` to long rows, dropping NaN
precipitation, mapping the month name through `month_map` and applying
`year = wy - 1 if month >= 10 else wy`. -/
def meltFile (wy : Int) (rows : List RawReading) : List LongRow :=
  rows.flatMap fun r =>
    (monthColumns r).filterMap fun mc =>
      mc.2.bind fun v =>
        (monthMap mc.1).map fun m =>
          { station_id := r.station_id, station_name := r.station_name,
            year := if 10 ≤ m then wy - 1 else wy, month := m,
            precip_in := v }

/-- The long rows of all raw files found in the source directory. -/
def allLongRows (files : List (Int × List RawReading)) : List LongRow :=
  files.flatMap fun f => meltFile f.1 f.2

/-- The station-metadata table, abstracted to its (normalised-to-be)
column names and, per data row, the pair of values under the
station-identifier column and the county column that the resolution
step selects. -/
structure Metadata where
  cols : List String
  pairs : List (String × String)
deriving Repr, DecidableEq

/-- The header normalisation
`str(col).strip().replace(' ', '_').lower().replace('(feet)', '').replace('"','')`. -/
def normColName (c : String) : String :=
  pyReplace (pyReplace (pyLower (pyReplace (pyStrip c) " " "_")) "(feet)" "") "\"" ""

/-- The column-resolution step: accept the table if after normalisation it
has columns `id` and `county`, or else columns `name` and `county_name`;
otherwise `raise KeyError` (modelled as `none`). -/
def resolveStationCountyPairs (m : Metadata) : Option (List (String × String)) :=
  let cs := m.cols.map normColName
  if cs.contains "id" && cs.contains "county" then some m.pairs
  else if cs.contains "name" && cs.contains "county_name" then some m.pairs
  else none

/-- The map `stations_df.set_index('station_id')['county'].to_dict()` followed by
`Series.map`: look a station id up in the metadata; a duplicated id keeps
the last row's county. -/
def stationCountyMap (pairs : List (String × String)) (sid : String) : Option String :=
  pairs.foldl (fun acc p => if p.1 = sid then some p.2 else acc) none

/-- The hard-coded list of California county names used for inference. -/
def ca_counties : List String :=
  ["Alameda", "Alpine", "Amador", "Butte", "Calaveras", "Colusa",
   "Contra Costa", "Del Norte", "El Dorado", "Fresno", "Glenn", "Humboldt",
   "Imperial", "Inyo", "Kern", "Kings", "Lake", "Lassen", "Los Angeles",
   "Madera", "Marin", "Mariposa", "Mendocino", "Merced", "Modoc", "Mono",
   "Monterey", "Napa", "Nevada", "Orange", "Placer", "Plumas", "Riverside",
   "Sacramento", "San Benito", "San Bernardino", "San Diego",
   "San Francisco", "San Joaquin", "San Luis Obispo", "San Mateo",
   "Santa Barbara", "Santa Clara", "Santa Cruz", "Shasta", "Sierra",
   "Siskiyou", "Solano", "Sonoma", "Stanislaus", "Sutter", "Tehama",
   "Trinity", "Tulare", "Tuolumne", "Ventura", "Yolo", "Yuba"]

/-- Case-insensitive: does `p` occur at the start of `t`? -/
def ciStartsWith : List Char → List Char → Bool
  | [], _ => true
  | _ :: _, [] => false
  | p :: ps, t :: ts => (p.toLower = t.toLower) && ciStartsWith ps ts

/-- The extraction `str.extract` over the county alternation pattern: the leftmost match of the
case-insensitive county alternation; alternatives are tried in list
order at each position, and the capture is the matched substring of the
name (in its original case). -/
def scanCounty : List Char → Option String
  | [] => none
  | t@(_ :: rest) =>
    match ca_counties.find? (fun c => ciStartsWith c.data t) with
    | some c => some ⟨t.take c.data.length⟩
    | none => scanCounty rest

/-- County resolution for one long row: the metadata map first (its value
used verbatim), then title-cased inference from the station name, then
the sentinel `"Unknown"` (`fillna('Unknown')`). -/
def resolveCounty (pairs : List (String × String)) (r : LongRow) : String :=
  match stationCountyMap pairs r.station_id with
  | some c => c
  | none =>
    match scanCounty r.station_name.data with
    | some s => pyTitle s
    | none => "Unknown"

/-- A long row with its resolved county. -/
structure CountyRow where
  county : String
  year : Int
  month : Nat
  precip_in : ℚ
deriving Repr, DecidableEq

def toCountyRow (pairs : List (String × String)) (r : LongRow) : CountyRow :=
  ⟨resolveCounty pairs r, r.year, r.month, r.precip_in⟩

structure RainKey where
  county : String
  year : Int
  month : Nat
deriving Repr, DecidableEq

def rainKey (r : CountyRow) : RainKey := ⟨r.county, r.year, r.month⟩

/-- Banker's rounding (numpy/pandas `round`): ties go to the even
integer. -/
def roundHalfEven (q : ℚ) : ℤ :=
  if q - ⌊q⌋ < 1/2 then ⌊q⌋
  else if 1/2 < q - ⌊q⌋ then ⌊q⌋ + 1
  else if ⌊q⌋ % 2 = 0 then ⌊q⌋ else ⌊q⌋ + 1

/-- Rounding `.round(2)`. -/
def round2 (q : ℚ) : ℚ := (roundHalfEven (q * 100) : ℚ) / 100

/-- Monthly per-county aggregate row (`rainfall_monthly.csv`). -/
structure RainAgg where
  county : String
  year : Int
  month : Nat
  precip_in : ℚ
deriving Repr, DecidableEq

/-- The aggregate row `groupby(['county','year','month'])['precip_in']
.sum()` followed by `.round(2)` produces for key `k`. -/
def rainAggFor (rows : List CountyRow) (k : RainKey) : RainAgg :=
  { county := k.county, year := k.year, month := k.month,
    precip_in :=
      round2 (((rows.filter fun r => rainKey r = k).map CountyRow.precip_in).sum) }

/-- The group-by: one row per distinct (county, year, month) key. -/
def aggregateRain (rows : List CountyRow) : List RainAgg :=
  ((rows.map rainKey).dedup).map (rainAggFor rows)

/-- Function `process_and_aggregate_rainfall`, as a function of the parsed
metadata table and the parsed raw files (water year, rows).  `none`
models the early `return` paths that write no output file: metadata
resolution failure, and `if not all_monthly_data: return`. -/
def process_and_aggregate_rainfall (meta : Metadata)
    (files : List (Int × List RawReading)) : Option (List RainAgg) :=
  match resolveStationCountyPairs meta with
  | none => none
  | some pairs =>
    if files.isEmpty then none
    else some (aggregateRain ((allLongRows files).map (toCountyRow pairs)))

/-! ## Merge (src/map_wildfireData_to_rainfallData.py) -/

/-- A row of `wildfire_monthly.csv` as `merge_datasets` reads it back
(the numeric columns are arbitrary CSV numbers, hence `ℚ`). -/
structure WFCsvRow where
  county : String
  year : Int
  month : Int
  incident_count : ℚ
  acres_burned : ℚ
deriving Repr, DecidableEq

/-- A row of `rainfall_monthly.csv` as `merge_datasets` reads it back. -/
structure RFCsvRow where
  county : String
  year : Int
  month : Int
  precip_in : ℚ
deriving Repr, DecidableEq

/-- The merge key (county, year, month). -/
structure MKey where
  county : String
  year : Int
  month : Int
deriving Repr, DecidableEq

/-- County standardisation on the wildfire frame. -/
def canonWF (r : WFCsvRow) : WFCsvRow := { r with county := canonCounty r.county }

/-- County standardisation on the rainfall frame. -/
def canonRF (r : RFCsvRow) : RFCsvRow := { r with county := canonCounty r.county }

def wfKey (r : WFCsvRow) : MKey := ⟨r.county, r.year, r.month⟩

def rfKey (r : RFCsvRow) : MKey := ⟨r.county, r.year, r.month⟩

/-- A row of the final merged frame.  `incident_count` is an `ℤ` because
of `.fillna(0).astype(int)`; the other two metrics stay `ℚ`. -/
structure MergedRow where
  county : String
  year : Int
  month : Int
  incident_count : ℤ
  acres_burned : ℚ
  precip_in : ℚ
deriving Repr, DecidableEq

def mKey (r : MergedRow) : MKey := ⟨r.county, r.year, r.month⟩

/-- Conversion `.astype(int)` on a float column: truncation toward zero. -/
def ratTrunc (q : ℚ) : ℤ := q.num.tdiv q.den

/-- The merged row produced for key `k` from the canonicalised inputs
`w'` and `r'`.  A key absent from one side gets a `NaN` there which
`.fillna(0)` turns into `0`; that coincides with the empty-group sum, so
each metric is simply the sum over the side's rows carrying key `k`. -/
def mergedRowFor (w' : List WFCsvRow) (r' : List RFCsvRow) (k : MKey) : MergedRow :=
  { county := k.county, year := k.year, month := k.month,
    incident_count :=
      ratTrunc (((w'.filter fun x => wfKey x = k).map WFCsvRow.incident_count).sum),
    acres_burned :=
      ((w'.filter fun x => wfKey x = k).map WFCsvRow.acres_burned).sum,
    precip_in :=
      ((r'.filter fun x => rfKey x = k).map RFCsvRow.precip_in).sum }

/-- Function `merge_datasets`: canonicalise the county columns, aggregate each
side to one row per (county, year, month), outer-join on the key and
fill the holes with zero.  The outer join's key set is the union of the
two sides' key sets, one output row per key. -/
def merge_datasets (w : List WFCsvRow) (r : List RFCsvRow) : List MergedRow :=
  let w' := w.map canonWF
  let r' := r.map canonRF
  (((w'.map wfKey) ++ (r'.map rfKey)).dedup).map (mergedRowFor w' r')

/-- The surrounding script: `merge_datasets` reads its two input CSVs
inside a `try`; a missing input file raises, the `except` reports it and
the function returns without writing the output (`none`). -/
def merge_run (w : Option (List WFCsvRow)) (r : Option (List RFCsvRow)) :
    Option (List MergedRow) :=
  match w, r with
  | some wd, some rd => some (merge_datasets wd rd)
  | _, _ => none

/-- Reading a `FireAgg` row back from `wildfire_monthly.csv`. -/
def wfAggToCsv (a : FireAgg) : WFCsvRow :=
  ⟨a.county, a.year, (a.month : Int), (a.incident_count : ℚ), a.acres_burned⟩

/-- Reading a `RainAgg` row back from `rainfall_monthly.csv`. -/
def rfAggToCsv (a : RainAgg) : RFCsvRow :=
  ⟨a.county, a.year, (a.month : Int), a.precip_in⟩

/-! ### A small end-to-end example instance of the pipeline -/

/-- One named 100-acre Fresno incident of July 2020. -/
def exRaw : List RawIncident :=
  [⟨some "Fresno", some (2020, (6 : Fin 12)), some 100, some "F1"⟩]

/-- A metadata table mapping station `S1` to Fresno. -/
def exMeta : Metadata := ⟨["ID", "County"], [("S1", "Fresno")]⟩

/-- One water-year-2015 raw file with a single station whose only value
is 2 inches in the "jan" column. -/
def exFiles : List (Int × List RawReading) :=
  [(2015, [⟨"S1", "N1", none, none, none, some 2, none, none, none, none,
            none, none, none, none⟩])]

/-- The rainfall aggregate of the example instance. -/
def exRain : List RainAgg :=
  aggregateRain ((allLongRows exFiles).map (toCountyRow [("S1", "Fresno")]))

/-- The merged output of the example instance. -/
def exMerged : List MergedRow :=
  merge_datasets ((process_wildfire_data exRaw).map wfAggToCsv) (exRain.map rfAggToCsv)

/-! ## General lemmas about the embedded operations -/

theorem ratTrunc_zero : ratTrunc 0 = 0 := by decide

/-- Filtering a list for a key that no element carries gives the empty
list. -/
theorem filter_key_eq_nil {α κ : Type} [DecidableEq κ] (f : α → κ) {l : List α} {k : κ}
    (h : k ∉ l.map f) : (l.filter fun x => f x = k) = [] := by
  rw [List.filter_eq_nil_iff]
  intro x hx
  simp only [decide_eq_true_eq]
  intro hk
  exact h (List.mem_map.mpr ⟨x, hx, hk⟩)

/-- If the key projection of a list is duplicate-free, filtering for the
key of a member returns exactly that member. -/
theorem filter_key_eq_singleton {α κ : Type} [DecidableEq κ] (f : α → κ) {l : List α}
    (hn : (l.map f).Nodup) {x : α} (hx : x ∈ l) :
    (l.filter fun z => f z = f x) = [x] := by
  induction l with
  | nil => cases hx
  | cons a t ih =>
    rw [List.map_cons, List.nodup_cons] at hn
    rcases List.mem_cons.mp hx with rfl | hxt
    · rw [List.filter_cons_of_pos (by simp)]
      have ht : (t.filter fun z => f z = f x) = [] := by
        rw [List.filter_eq_nil_iff]
        intro z hz
        simp only [decide_eq_true_eq]
        intro hfz
        exact hn.1 (List.mem_map.mpr ⟨z, hz, hfz⟩)
      rw [ht]
    · have hfa : ¬(f a = f x) := fun he => hn.1 (List.mem_map.mpr ⟨x, hxt, he.symm⟩)
      rw [List.filter_cons_of_neg (by simpa using hfa)]
      exact ih hn.2 hxt

theorem mKey_mergedRowFor (w' : List WFCsvRow) (r' : List RFCsvRow) (k : MKey) :
    mKey (mergedRowFor w' r' k) = k := rfl

/-- Characterisation of merged-output membership: every output row is
the aggregate row of a key coming from one of the two canonicalised
inputs. -/
theorem mem_merge_datasets (w : List WFCsvRow) (r : List RFCsvRow) (row : MergedRow) :
    row ∈ merge_datasets w r ↔
      ∃ k, (k ∈ (w.map canonWF).map wfKey ∨ k ∈ (r.map canonRF).map rfKey) ∧
        row = mergedRowFor (w.map canonWF) (r.map canonRF) k := by
  simp only [merge_datasets, List.mem_map, List.mem_dedup, List.mem_append]
  constructor
  · rintro ⟨k, hk, rfl⟩; exact ⟨k, hk, rfl⟩
  · rintro ⟨k, hk, rfl⟩; exact ⟨k, hk, rfl⟩

/-- The merged output carries no duplicate (county, year, month) key. -/
theorem merge_datasets_keys_nodup (w : List WFCsvRow) (r : List RFCsvRow) :
    ((merge_datasets w r).map mKey).Nodup := by
  show ((((((w.map canonWF).map wfKey) ++ ((r.map canonRF).map rfKey)).dedup).map
    (mergedRowFor (w.map canonWF) (r.map canonRF))).map mKey).Nodup
  rw [List.map_map]
  have h : (mKey ∘ mergedRowFor (w.map canonWF) (r.map canonRF)) = id := funext fun _ => rfl
  rw [h, List.map_id]
  exact List.nodup_dedup _

/-- The key list of the merged output, as a list equation. -/
theorem merge_datasets_map_mKey (w : List WFCsvRow) (r : List RFCsvRow) :
    (merge_datasets w r).map mKey =
      (((w.map canonWF).map wfKey) ++ ((r.map canonRF).map rfKey)).dedup := by
  show ((((((w.map canonWF).map wfKey) ++ ((r.map canonRF).map rfKey)).dedup).map
    (mergedRowFor (w.map canonWF) (r.map canonRF))).map mKey) = _
  rw [List.map_map]
  have h : (mKey ∘ mergedRowFor (w.map canonWF) (r.map canonRF)) = id := funext fun _ => rfl
  rw [h, List.map_id]

/-! ## Claim C1 -/

/-- Claim C1: (confirmed).  For every pair of input aggregates,
`merge_datasets` outputs exactly one record per (county, year, month)
key in the union of the two (standardised) input key sets: the output
key list is duplicate-free and a key occurs in it iff it occurs on at
least one side; for a key present on only one side, the metrics of the
absent side are filled with zero (never dropped, never left null).  In
the embedding `incident_count` has type `ℤ` (`fillna(0).astype(int)`)
while `acres_burned` and `precip_in` stay `ℚ`. -/
theorem merged_output_key_union_and_zero_fill (w : List WFCsvRow) (r : List RFCsvRow) :
    ((merge_datasets w r).map mKey).Nodup ∧
    (∀ k : MKey, k ∈ (merge_datasets w r).map mKey ↔
      (k ∈ (w.map canonWF).map wfKey ∨ k ∈ (r.map canonRF).map rfKey)) ∧
    (∀ row ∈ merge_datasets w r,
      (mKey row ∉ (w.map canonWF).map wfKey →
        row.incident_count = 0 ∧ row.acres_burned = 0) ∧
      (mKey row ∉ (r.map canonRF).map rfKey → row.precip_in = 0)) := by
  refine ⟨merge_datasets_keys_nodup w r, ?_, ?_⟩
  · intro k
    rw [merge_datasets_map_mKey]
    simp [List.mem_dedup, List.mem_append]
  · intro row hrow
    rcases (mem_merge_datasets w r row).mp hrow with ⟨k, _, rfl⟩
    rw [mKey_mergedRowFor]
    constructor
    · intro hknw
      have hf := filter_key_eq_nil wfKey hknw
      constructor
      · show ratTrunc _ = 0
        rw [hf]
        exact ratTrunc_zero
      · show (List.map _ _).sum = 0
        rw [hf]
        rfl
    · intro hknr
      have hf := filter_key_eq_nil rfKey hknr
      show (List.map _ _).sum = 0
      rw [hf]
      rfl

/-- Witness for C1 at concrete inputs: the canonical key of the two
one-row inputs is in the output key list, and with an empty rainfall
input the single output row has `precip_in = 0`. -/
theorem merged_output_key_union_and_zero_fill_witness :
    ((⟨"Los Angeles", 2020, 1⟩ : MKey) ∈
      (merge_datasets [⟨"LOS ANGELES", 2020, 1, 1, 5⟩]
        [⟨" los angeles ", 2020, 1, 2⟩]).map mKey) ∧
    ((merge_datasets [⟨"Fresno", 2020, 7, 1, 100⟩] []).get ⟨0, by decide⟩).precip_in = 0 := by
  constructor
  · exact ((merged_output_key_union_and_zero_fill
      [⟨"LOS ANGELES", 2020, 1, 1, 5⟩] [⟨" los angeles ", 2020, 1, 2⟩]).2.1 _).mpr
      (Or.inl (by decide))
  · exact ((merged_output_key_union_and_zero_fill [⟨"Fresno", 2020, 7, 1, 100⟩] []).2.2 _
      (List.get_mem _ 0 (by decide))).2 (by simp)

/-! ## Claim C10 -/

/-- Claim C10: (confirmed).  Even when an input given to `merge_datasets`
contains several rows with the same (county, year, month) key, the
merger first re-groups each input by the canonicalised key, summing
`incident_count`, `acres_burned` and `precip_in` per key, so the merged
output contains at most one row per key: the output key list is
duplicate-free and each output metric is the corresponding sum over all
input rows whose canonicalised key matches. -/
theorem merged_output_regrouped_sums (w : List WFCsvRow) (r : List RFCsvRow) :
    ((merge_datasets w r).map mKey).Nodup ∧
    ∀ row ∈ merge_datasets w r,
      row.incident_count = ratTrunc ((((w.map canonWF).filter
        fun x => wfKey x = mKey row).map WFCsvRow.incident_count).sum) ∧
      row.acres_burned = (((w.map canonWF).filter
        fun x => wfKey x = mKey row).map WFCsvRow.acres_burned).sum ∧
      row.precip_in = (((r.map canonRF).filter
        fun x => rfKey x = mKey row).map RFCsvRow.precip_in).sum := by
  refine ⟨merge_datasets_keys_nodup w r, ?_⟩
  intro row hrow
  rcases (mem_merge_datasets w r row).mp hrow with ⟨k, _, rfl⟩
  exact ⟨rfl, rfl, rfl⟩

/-- Witness for C10: with two differently-cased duplicate-key wildfire
rows, the single merged row's acres figure is the re-grouped sum. -/
theorem merged_output_regrouped_sums_witness :
    ((merge_datasets [⟨"LOS ANGELES", 2020, 1, 1, 5⟩, ⟨" los angeles ", 2020, 1, 2, 7⟩]
        []).get ⟨0, by decide⟩).acres_burned =
      ((([(⟨"LOS ANGELES", 2020, 1, 1, 5⟩ : WFCsvRow),
          ⟨" los angeles ", 2020, 1, 2, 7⟩].map canonWF).filter
        fun x => wfKey x = mKey ((merge_datasets
          [⟨"LOS ANGELES", 2020, 1, 1, 5⟩, ⟨" los angeles ", 2020, 1, 2, 7⟩]
          []).get ⟨0, by decide⟩)).map WFCsvRow.acres_burned).sum :=
  ((merged_output_regrouped_sums
    [⟨"LOS ANGELES", 2020, 1, 1, 5⟩, ⟨" los angeles ", 2020, 1, 2, 7⟩] []).2 _
    (List.get_mem _ 0 (by decide))).2.1

/-! ## Claim C4 -/

/-- Claim C4: is false as stated: the rainfall normaliser uses county
values taken from the station metadata verbatim, so two differently-
cased spellings of the same county appear as distinct records in its
own aggregate output, even though they canonicalise to the same key. -/
theorem rainfall_aggregate_distinct_county_spellings :
    Option.map (List.map RainAgg.county)
      (process_and_aggregate_rainfall
        ⟨["ID", "County"], [("S1", " los angeles "), ("S2", "Los Angeles")]⟩
        [(2015, [⟨"S1", "N1", none, none, none, some 1, none, none, none,
                   none, none, none, none, none⟩,
                 ⟨"S2", "N2", none, none, none, some 2, none, none, none,
                   none, none, none, none, none⟩])]) =
      some [" los angeles ", "Los Angeles"] ∧
    canonCounty " los angeles " = canonCounty "Los Angeles" ∧
    " los angeles " ≠ "Los Angeles" := by
  exact ⟨by decide, by decide, by decide⟩

/-- Claim C4: (amended, confirmed for the merge).  County strings are
canonicalised (whitespace trimmed, title case) before being used as the
join key in `merge_datasets`, so differently-cased spellings of the
same county are never distinct keys in the merged output: every output
county is the canonical image of some input county and the output key
list is duplicate-free.  In the rainfall normaliser's own aggregate,
however, county values taken from station metadata are used verbatim
and differently-cased metadata spellings remain distinct records. -/
theorem merge_counties_canonicalised (w : List WFCsvRow) (r : List RFCsvRow) :
    (∀ row ∈ merge_datasets w r,
      ∃ c, (c ∈ w.map WFCsvRow.county ∨ c ∈ r.map RFCsvRow.county) ∧
        row.county = canonCounty c) ∧
    ((merge_datasets w r).map mKey).Nodup := by
  refine ⟨?_, merge_datasets_keys_nodup w r⟩
  intro row hrow
  rcases (mem_merge_datasets w r row).mp hrow with ⟨k, hk, rfl⟩
  rcases hk with hk | hk
  · rcases List.mem_map.mp hk with ⟨x, hx, rfl⟩
    rcases List.mem_map.mp hx with ⟨x0, hx0, rfl⟩
    exact ⟨x0.county, Or.inl (List.mem_map.mpr ⟨x0, hx0, rfl⟩), rfl⟩
  · rcases List.mem_map.mp hk with ⟨x, hx, rfl⟩
    rcases List.mem_map.mp hx with ⟨x0, hx0, rfl⟩
    exact ⟨x0.county, Or.inr (List.mem_map.mpr ⟨x0, hx0, rfl⟩), rfl⟩

/-- Witness for the amended C4 at concrete inputs with three spellings
of one county. -/
theorem merge_counties_canonicalised_witness :
    ∃ c, (c ∈ [(⟨"LOS ANGELES", 2020, 1, 1, 5⟩ : WFCsvRow)].map WFCsvRow.county ∨
          c ∈ [(⟨" los angeles ", 2020, 1, 2⟩ : RFCsvRow)].map RFCsvRow.county) ∧
      ((merge_datasets [⟨"LOS ANGELES", 2020, 1, 1, 5⟩]
        [⟨" los angeles ", 2020, 1, 2⟩]).get ⟨0, by decide⟩).county = canonCounty c :=
  (merge_counties_canonicalised [⟨"LOS ANGELES", 2020, 1, 1, 5⟩]
    [⟨" los angeles ", 2020, 1, 2⟩]).1 _ (List.get_mem _ 0 (by decide))

/-! ## Claim C5 -/

/-- Claim C5: is false as stated: with a valid metadata table but no
parseable raw rainfall file, `process_and_aggregate_rainfall` returns
without producing any aggregate (`none`, not an empty aggregate
`some []`), and the downstream merge, whose rainfall input file is then
missing, catches the read error and produces no merged output either. -/
theorem no_raw_files_counterexample :
    process_and_aggregate_rainfall ⟨["ID", "County"], [("S1", "Fresno")]⟩ [] = none ∧
    process_and_aggregate_rainfall ⟨["ID", "County"], [("S1", "Fresno")]⟩ [] ≠ some [] ∧
    merge_run (some [⟨"Fresno", 2020, 7, 1, 100⟩]) none = none := by
  exact ⟨by decide, by decide, rfl⟩

/-- Claim C5: (amended).  When the raw-reading source directory yields no
parseable rainfall files, the rainfall normaliser reports the condition
and returns without writing an output aggregate (it does not fail
fatally); the downstream merge then cannot read the rainfall file, so
it reports the error and produces no merged output (the run itself
still does not crash). -/
theorem no_raw_files_no_outputs (meta : Metadata) (w : Option (List WFCsvRow)) :
    process_and_aggregate_rainfall meta [] = none ∧ merge_run w none = none := by
  constructor
  · unfold process_and_aggregate_rainfall
    cases resolveStationCountyPairs meta <;> simp
  · cases w <;> rfl

/-! ## Claim C2 -/

/-- Claim C2: is false as stated: a multi-county incident whose
`incident_name` is missing is still exploded, but pandas
`('incident_name', 'count')` counts only non-null names, so its
`incident_count` contribution to each listed county is `0`, not `1`. -/
theorem multi_county_nameless_zero_count :
    ∃ g ∈ process_wildfire_data
        [⟨some "Fresno, Kern", some (2020, (6 : Fin 12)), some 100, none⟩],
      g.county = "Fresno" ∧ g.incident_count = 0 :=
  ⟨_, List.get_mem _ 0 (by decide), by decide, by decide⟩

/-- Claim C2: (amended).  A raw incident whose county field lists multiple
comma-separated counties is duplicated once per listed county, with the
full, unscaled `acres_burned` attributed to each resulting county, and
an `incident_count` contribution of `1` to each county when the
incident's name field is present (`0` when it is missing); so an
incident listing "Fresno, Kern" with a name and `acres_burned = 100`
contributes 100 acres and 1 incident to both Fresno and Kern, total
acres across counties 200.  (Stated for an incident whose listed
counties are pairwise distinct after canonicalisation, so that the
explosion produces one output group per listed county.) -/
theorem multi_county_explosion (cs : String) (y : Int) (m : Fin 12) (a : ℚ)
    (nm : Option String)
    (hnd : (((pySplitComma cs).map pyStrip).map canonCounty).Nodup) :
    process_wildfire_data [⟨some cs, some (y, m), some a, nm⟩] =
      ((pySplitComma cs).map pyStrip).map fun c =>
        { county := canonCounty c, year := y, month := m.val + 1,
          incident_count := if nm.isSome then 1 else 0, acres_burned := a } := by
  have hrows : fireRows [⟨some cs, some (y, m), some a, nm⟩] =
      ((pySplitComma cs).map pyStrip).map (fun c =>
        ({ county := canonCounty c, year := y, month := m.val + 1,
           name := nm, acres := a } : FireRow)) := by
    simp [fireRows]
  have hkeys : (fireRows [⟨some cs, some (y, m), some a, nm⟩]).map fireKey =
      (((pySplitComma cs).map pyStrip).map canonCounty).map
        (fun cc => (⟨cc, y, m.val + 1⟩ : FireKey)) := by
    rw [hrows]
    simp only [List.map_map]
    rfl
  have hknd : ((fireRows [⟨some cs, some (y, m), some a, nm⟩]).map fireKey).Nodup := by
    rw [hkeys]
    exact hnd.map fun x1 x2 h => congrArg FireKey.county h
  unfold process_wildfire_data
  rw [List.dedup_eq_self.mpr hknd, hkeys]
  conv_lhs => rw [List.map_map, List.map_map]
  refine List.map_congr_left ?_
  intro c hc
  have hm : ({ county := canonCounty c, year := y, month := m.val + 1,
               name := nm, acres := a } : FireRow) ∈
      fireRows [⟨some cs, some (y, m), some a, nm⟩] := by
    rw [hrows]
    exact List.mem_map_of_mem _ hc
  have hfil : (fireRows [⟨some cs, some (y, m), some a, nm⟩]).filter
      (fun r => fireKey r = ⟨canonCounty c, y, m.val + 1⟩) =
      [{ county := canonCounty c, year := y, month := m.val + 1,
         name := nm, acres := a }] :=
    filter_key_eq_singleton fireKey hknd hm
  show fireAggFor _ _ = _
  unfold fireAggFor
  rw [hfil]
  cases nm <;> simp [countNamed, sumAcres]

/-- Witness for the amended C2: the "Fresno, Kern" example with a named
incident of 100 acres yields one group per county, each with 1 incident
and the full 100 acres; the total acres across counties is 200. -/
theorem multi_county_explosion_witness :
    (((pySplitComma "Fresno, Kern").map pyStrip).map canonCounty).Nodup ∧
    process_wildfire_data
        [⟨some "Fresno, Kern", some (2020, (6 : Fin 12)), some 100, some "ALPHA"⟩] =
      ((pySplitComma "Fresno, Kern").map pyStrip).map (fun c =>
        { county := canonCounty c, year := 2020, month := 7,
          incident_count := if (some "ALPHA").isSome then 1 else 0,
          acres_burned := 100 }) ∧
    ((process_wildfire_data
        [⟨some "Fresno, Kern", some (2020, (6 : Fin 12)), some 100, some "ALPHA"⟩]).map
      FireAgg.acres_burned).sum = 200 := by
  refine ⟨by decide,
    multi_county_explosion "Fresno, Kern" 2020 6 100 (some "ALPHA") (by decide), ?_⟩
  rw [multi_county_explosion "Fresno, Kern" 2020 6 100 (some "ALPHA") (by decide)]
  have hsplit : (pySplitComma "Fresno, Kern").map pyStrip = ["Fresno", "Kern"] := by decide
  rw [hsplit]
  norm_num

/-! ## Claim C3 -/

/-- Claim C3: (confirmed).  For every station reading in water year `wy`
and every fiscal-month column, the melted long row carries
`calendar_year = wy - 1` when the mapped calendar month is ≥ 10 and
`calendar_year = wy` otherwise; in particular a water-year `wy` "oct"
value appears under (year `wy - 1`, month 10) and the same row's "jan"
value under (year `wy`, month 1). -/
theorem water_year_conversion (wy : Int) (rows : List RawReading) :
    (∀ lr ∈ meltFile wy rows, lr.year = if 10 ≤ lr.month then wy - 1 else wy) ∧
    (∀ r ∈ rows, ∀ v : ℚ, r.oct = some v →
      ({ station_id := r.station_id, station_name := r.station_name,
         year := wy - 1, month := 10, precip_in := v } : LongRow) ∈ meltFile wy rows) ∧
    (∀ r ∈ rows, ∀ v : ℚ, r.jan = some v →
      ({ station_id := r.station_id, station_name := r.station_name,
         year := wy, month := 1, precip_in := v } : LongRow) ∈ meltFile wy rows) := by
  refine ⟨?_, ?_, ?_⟩
  · intro lr hlr
    rcases List.mem_flatMap.mp hlr with ⟨r, _, hlr2⟩
    rcases List.mem_filterMap.mp hlr2 with ⟨mc, _, heq⟩
    rcases Option.bind_eq_some.mp heq with ⟨v, _, hmap⟩
    rcases Option.map_eq_some'.mp hmap with ⟨mth, _, hlr3⟩
    subst hlr3
    rfl
  · intro r hr v hv
    refine List.mem_flatMap.mpr ⟨r, hr, ?_⟩
    refine List.mem_filterMap.mpr ⟨("oct", r.oct), by simp [monthColumns], ?_⟩
    rw [hv]
    simp [monthMap]
  · intro r hr v hv
    refine List.mem_flatMap.mpr ⟨r, hr, ?_⟩
    refine List.mem_filterMap.mpr ⟨("jan", r.jan), by simp [monthColumns], ?_⟩
    rw [hv]
    simp [monthMap]

/-- Witness for C3: a fiscal-year-2015 reading with "oct" = 3 and
"jan" = 4 produces (2014, 10, 3) and (2015, 1, 4). -/
theorem water_year_conversion_witness :
    ({ station_id := "SID", station_name := "SNAME", year := 2014, month := 10,
       precip_in := 3 } : LongRow) ∈ meltFile 2015
        [⟨"SID", "SNAME", some 3, none, none, some 4, none, none, none, none,
          none, none, none, none⟩] ∧
    ({ station_id := "SID", station_name := "SNAME", year := 2015, month := 1,
       precip_in := 4 } : LongRow) ∈ meltFile 2015
        [⟨"SID", "SNAME", some 3, none, none, some 4, none, none, none, none,
          none, none, none, none⟩] :=
  ⟨(water_year_conversion 2015 _).2.1 _ (List.mem_singleton_self _) 3 rfl,
   (water_year_conversion 2015 _).2.2 _ (List.mem_singleton_self _) 4 rfl⟩

/-! ## Claim C7 -/

/-- Evaluating `process_and_aggregate_rainfall` on resolvable metadata and a
non-empty file list: the output equation. -/
theorem process_rainfall_eq (meta : Metadata) (files : List (Int × List RawReading))
    (pairs : List (String × String))
    (hres : resolveStationCountyPairs meta = some pairs)
    (hne : files.isEmpty = false) :
    process_and_aggregate_rainfall meta files =
      some (aggregateRain ((allLongRows files).map (toCountyRow pairs))) := by
  unfold process_and_aggregate_rainfall
  rw [hres, hne]
  rfl

/-- Claim C7: (confirmed).  A station reading whose `station_id` is absent
from the metadata map and whose station name contains no recognisable
county string is retained: its resolved county is the sentinel
`"Unknown"`, the stage still produces an aggregate, and that aggregate
contains a row for the key ("Unknown", year, month) whose precipitation
is the (rounded) group sum, with the reading's own row a member of the
summed group. -/
theorem unknown_station_retained (meta : Metadata) (files : List (Int × List RawReading))
    (pairs : List (String × String)) (lr : LongRow)
    (hres : resolveStationCountyPairs meta = some pairs)
    (hlr : lr ∈ allLongRows files)
    (hmap : stationCountyMap pairs lr.station_id = none)
    (hname : scanCounty lr.station_name.data = none) :
    (toCountyRow pairs lr).county = "Unknown" ∧
    ∃ out, process_and_aggregate_rainfall meta files = some out ∧
      ∃ row ∈ out, row.county = "Unknown" ∧ row.year = lr.year ∧ row.month = lr.month ∧
        row.precip_in = round2 (((((allLongRows files).map (toCountyRow pairs)).filter
          fun x => rainKey x = ⟨"Unknown", lr.year, lr.month⟩).map CountyRow.precip_in).sum) ∧
        toCountyRow pairs lr ∈ ((allLongRows files).map (toCountyRow pairs)).filter
          fun x => rainKey x = ⟨"Unknown", lr.year, lr.month⟩ := by
  have hcounty : resolveCounty pairs lr = "Unknown" := by
    unfold resolveCounty
    rw [hmap, hname]
  have hne : files.isEmpty = false := by
    cases files with
    | nil => simp [allLongRows] at hlr
    | cons f fs => rfl
  have hkey : rainKey (toCountyRow pairs lr) = ⟨"Unknown", lr.year, lr.month⟩ := by
    simp [rainKey, toCountyRow, hcounty]
  have htcr : toCountyRow pairs lr ∈ (allLongRows files).map (toCountyRow pairs) :=
    List.mem_map_of_mem _ hlr
  have hkmem : (⟨"Unknown", lr.year, lr.month⟩ : RainKey) ∈
      (((allLongRows files).map (toCountyRow pairs)).map rainKey).dedup :=
    List.mem_dedup.mpr (List.mem_map.mpr ⟨toCountyRow pairs lr, htcr, hkey⟩)
  refine ⟨by simpa [toCountyRow] using hcounty, _,
    process_rainfall_eq meta files pairs hres hne, ?_⟩
  refine ⟨rainAggFor ((allLongRows files).map (toCountyRow pairs))
    ⟨"Unknown", lr.year, lr.month⟩, List.mem_map_of_mem _ hkmem, rfl, rfl, rfl, rfl, ?_⟩
  exact List.mem_filter.mpr ⟨htcr, by simp [hkey]⟩

/-- Witness for C7: a station "XX" absent from the metadata whose name
"REMOTE SITE" matches no county resolves to "Unknown". -/
theorem unknown_station_retained_witness :
    (toCountyRow [("S1", "Fresno")]
      ⟨"XX", "REMOTE SITE", 2014, 10, 3⟩).county = "Unknown" :=
  (unknown_station_retained ⟨["ID", "County"], [("S1", "Fresno")]⟩
    [(2015, [⟨"XX", "REMOTE SITE", some 3, none, none, none, none, none, none,
      none, none, none, none, none⟩])]
    [("S1", "Fresno")] ⟨"XX", "REMOTE SITE", 2014, 10, 3⟩
    (by decide) (by decide) (by decide) (by decide)).1

/-! ## Claim C8 -/

/-- Claim C8: (confirmed).  If after header normalisation the station
metadata table supplies neither the (`id`, `county`) column pair nor
the (`name`, `county_name`) column pair, the rainfall stage fails: the
`KeyError` is reported and the stage produces no output aggregate. -/
theorem metadata_resolution_failure (meta : Metadata)
    (files : List (Int × List RawReading))
    (h1 : ¬("id" ∈ meta.cols.map normColName ∧ "county" ∈ meta.cols.map normColName))
    (h2 : ¬("name" ∈ meta.cols.map normColName ∧
            "county_name" ∈ meta.cols.map normColName)) :
    process_and_aggregate_rainfall meta files = none := by
  have hres : resolveStationCountyPairs meta = none := by
    unfold resolveStationCountyPairs
    rw [if_neg, if_neg]
    · simpa using h2
    · simpa using h1
  unfold process_and_aggregate_rainfall
  rw [hres]

/-- Witness for C8: a metadata table whose normalised columns are
`station` and `region` resolves to neither pair, so the stage yields no
output. -/
theorem metadata_resolution_failure_witness :
    process_and_aggregate_rainfall ⟨["Station", "Region"], []⟩ [(2015, [])] = none :=
  metadata_resolution_failure _ _ (by decide) (by decide)

/-! ## Bounds used for the pipeline invariants -/

/-- The `month_map` dictionary only produces calendar months between 1 and 12. -/
theorem monthMap_bounds (s : String) (m : Nat) (h : monthMap s = some m) :
    1 ≤ m ∧ m ≤ 12 := by
  unfold monthMap at h
  split at h <;> simp_all <;> omega

/-- Every exploded wildfire row carries a month in 1..12 (it comes from
a parsed datetime) and an acres value coming from some raw incident. -/
theorem mem_fireRows (raw : List RawIncident) (r : FireRow) (hr : r ∈ fireRows raw) :
    (1 ≤ r.month ∧ r.month ≤ 12) ∧
    ∃ rr ∈ raw, rr.incident_acres_burned = some r.acres := by
  rcases List.mem_flatMap.mp hr with ⟨rr, hrr, hr2⟩
  rcases ha : rr.incident_acres_burned with _ | a <;>
    rcases hc : rr.incident_county with _ | cs <;>
    rcases hd : rr.incident_dateonly_created with _ | ym <;>
    rw [ha, hc, hd] at hr2 <;> simp only [] at hr2 <;>
    try cases hr2
  rcases ym with ⟨y, m⟩
  rcases List.mem_map.mp hr2 with ⟨c, _, rfl⟩
  refine ⟨⟨?_, ?_⟩, rr, hrr, ha⟩
  · show 1 ≤ m.val + 1
    omega
  · show m.val + 1 ≤ 12
    have := m.isLt
    omega

/-- Month bounds for the wildfire monthly summary. -/
theorem process_wildfire_month_bounds (raw : List RawIncident) (g : FireAgg)
    (hg : g ∈ process_wildfire_data raw) : 1 ≤ g.month ∧ g.month ≤ 12 := by
  rcases List.mem_map.mp hg with ⟨k, hk, rfl⟩
  rcases List.mem_map.mp (List.mem_dedup.mp hk) with ⟨fr, hfr, rfl⟩
  exact (mem_fireRows raw fr hfr).1

/-- Acres nonnegativity for the wildfire monthly summary, given
nonnegative raw acres. -/
theorem process_wildfire_acres_nonneg (raw : List RawIncident)
    (hacres : ∀ rr ∈ raw, ∀ a : ℚ, rr.incident_acres_burned = some a → 0 ≤ a)
    (g : FireAgg) (hg : g ∈ process_wildfire_data raw) : 0 ≤ g.acres_burned := by
  rcases List.mem_map.mp hg with ⟨k, _, rfl⟩
  show 0 ≤ (((fireRows raw).filter fun r => fireKey r = k).map FireRow.acres).sum
  apply List.sum_nonneg
  intro x hx
  rcases List.mem_map.mp hx with ⟨fr, hfr, rfl⟩
  rcases (mem_fireRows raw fr (List.mem_filter.mp hfr).1).2 with ⟨rr, hrr, ha⟩
  exact hacres rr hrr _ ha

theorem roundHalfEven_nonneg {q : ℚ} (h : 0 ≤ q) : 0 ≤ roundHalfEven q := by
  unfold roundHalfEven
  have h0 : (0 : ℤ) ≤ ⌊q⌋ := Int.le_floor.mpr (by exact_mod_cast h)
  split_ifs <;> omega

theorem round2_nonneg {q : ℚ} (h : 0 ≤ q) : 0 ≤ round2 q := by
  unfold round2
  have h1 : 0 ≤ roundHalfEven (q * 100) := roundHalfEven_nonneg (by positivity)
  exact div_nonneg (by exact_mod_cast h1) (by norm_num)

theorem ratTrunc_nonneg {q : ℚ} (h : 0 ≤ q) : 0 ≤ ratTrunc q := by
  unfold ratTrunc
  have hnum : (0 : ℤ) ≤ q.num := Rat.num_nonneg.mpr h
  exact Int.tdiv_nonneg hnum (by positivity)

/-- Every melted long row carries a month in 1..12 and a precipitation
value coming from some month cell of some reading. -/
theorem mem_meltFile (wy : Int) (rows : List RawReading) (lr : LongRow)
    (h : lr ∈ meltFile wy rows) :
    (1 ≤ lr.month ∧ lr.month ≤ 12) ∧
    ∃ rr ∈ rows, ∃ mc ∈ monthColumns rr, mc.2 = some lr.precip_in := by
  rcases List.mem_flatMap.mp h with ⟨rr, hrr, h2⟩
  rcases List.mem_filterMap.mp h2 with ⟨mc, hmc, heq⟩
  rcases Option.bind_eq_some.mp heq with ⟨v, hv, hmap⟩
  rcases Option.map_eq_some'.mp hmap with ⟨mth, hmth, hlr⟩
  subst hlr
  exact ⟨monthMap_bounds _ _ hmth, rr, hrr, mc, hmc, hv⟩

/-- Month bounds for the rainfall aggregate. -/
theorem aggregateRain_month_bounds (files : List (Int × List RawReading))
    (pairs : List (String × String)) (a : RainAgg)
    (ha : a ∈ aggregateRain ((allLongRows files).map (toCountyRow pairs))) :
    1 ≤ a.month ∧ a.month ≤ 12 := by
  rcases List.mem_map.mp ha with ⟨k, hk, rfl⟩
  rcases List.mem_map.mp (List.mem_dedup.mp hk) with ⟨cr, hcr, rfl⟩
  rcases List.mem_map.mp hcr with ⟨lr, hlr, rfl⟩
  rcases List.mem_flatMap.mp hlr with ⟨f, _, hlrf⟩
  exact (mem_meltFile f.1 f.2 lr hlrf).1

/-- Precipitation nonnegativity for the rainfall aggregate, given
nonnegative raw month cells. -/
theorem aggregateRain_precip_nonneg (files : List (Int × List RawReading))
    (pairs : List (String × String))
    (hprecip : ∀ f ∈ files, ∀ rr ∈ f.2, ∀ mc ∈ monthColumns rr, ∀ v : ℚ,
      mc.2 = some v → 0 ≤ v)
    (a : RainAgg) (ha : a ∈ aggregateRain ((allLongRows files).map (toCountyRow pairs))) :
    0 ≤ a.precip_in := by
  rcases List.mem_map.mp ha with ⟨k, _, rfl⟩
  apply round2_nonneg
  apply List.sum_nonneg
  intro x hx
  rcases List.mem_map.mp hx with ⟨cr, hcr, rfl⟩
  rcases List.mem_map.mp (List.mem_filter.mp hcr).1 with ⟨lr, hlr, rfl⟩
  rcases List.mem_flatMap.mp hlr with ⟨f, hf, hlrf⟩
  rcases (mem_meltFile f.1 f.2 lr hlrf).2 with ⟨rr, hrr, mc, hmc, hv⟩
  exact hprecip f hf rr hrr mc hmc _ hv

/-- Inversion of a successful rainfall run. -/
theorem process_rainfall_some_inv (meta : Metadata)
    (files : List (Int × List RawReading)) (rain : List RainAgg)
    (hrain : process_and_aggregate_rainfall meta files = some rain) :
    ∃ pairs, resolveStationCountyPairs meta = some pairs ∧
      rain = aggregateRain ((allLongRows files).map (toCountyRow pairs)) := by
  unfold process_and_aggregate_rainfall at hrain
  rcases hres : resolveStationCountyPairs meta with _ | pairs <;> rw [hres] at hrain
  · cases hrain
  · by_cases hne : files.isEmpty <;> simp [hne] at hrain
    exact ⟨pairs, rfl, hrain.symm⟩

/-! ## Claim C9 -/

/-- Claim C9: is false as stated: nothing in the pipeline clamps negative
metric values, so a raw incident whose acres field parses to `-5`
produces a merged record with `acres_burned < 0`. -/
theorem merged_negative_acres_counterexample :
    ∃ row ∈ merge_datasets
        ((process_wildfire_data
          [⟨some "Fresno", some (2020, (6 : Fin 12)), some (-5), some "F1"⟩]).map
          wfAggToCsv) [],
      row.acres_burned < 0 := by
  refine ⟨(merge_datasets
      ((process_wildfire_data
        [⟨some "Fresno", some (2020, (6 : Fin 12)), some (-5), some "F1"⟩]).map
        wfAggToCsv) []).get ⟨0, by decide⟩, List.get_mem _ 0 (by decide), ?_⟩
  show ((-5 : ℚ) + 0) + 0 < 0
  norm_num

/-- Claim C9: (amended).  For every record of the merged output of the
composed pipeline: `incident_count ≥ 0` and `month ∈ [1, 12]` hold for
all inputs (first conjunct, no sign hypotheses), while `acres_burned ≥ 0`
and `precip_in ≥ 0` hold provided every parsed raw acres value,
respectively every parsed raw precipitation cell, is nonnegative (the
code never clamps, so those two sum bounds genuinely need the
input-sign hypotheses, as the counterexample shows). -/
theorem pipeline_merged_invariants (raw : List RawIncident) (meta : Metadata)
    (files : List (Int × List RawReading)) (rain : List RainAgg)
    (hrain : process_and_aggregate_rainfall meta files = some rain) :
    (∀ row ∈ merge_datasets ((process_wildfire_data raw).map wfAggToCsv)
        (rain.map rfAggToCsv),
      0 ≤ row.incident_count ∧ 1 ≤ row.month ∧ row.month ≤ 12) ∧
    ((∀ rr ∈ raw, ∀ a : ℚ, rr.incident_acres_burned = some a → 0 ≤ a) →
      ∀ row ∈ merge_datasets ((process_wildfire_data raw).map wfAggToCsv)
        (rain.map rfAggToCsv), 0 ≤ row.acres_burned) ∧
    ((∀ f ∈ files, ∀ rr ∈ f.2, ∀ mc ∈ monthColumns rr, ∀ v : ℚ,
        mc.2 = some v → 0 ≤ v) →
      ∀ row ∈ merge_datasets ((process_wildfire_data raw).map wfAggToCsv)
        (rain.map rfAggToCsv), 0 ≤ row.precip_in) := by
  rcases process_rainfall_some_inv meta files rain hrain with ⟨pairs, _, hrainEq⟩
  refine ⟨?_, ?_, ?_⟩
  · intro row hrow
    rcases (mem_merge_datasets _ _ row).mp hrow with ⟨k, hk, rfl⟩
    refine ⟨?_, ?_, ?_⟩
    · apply ratTrunc_nonneg
      apply List.sum_nonneg
      intro x hx
      rcases List.mem_map.mp hx with ⟨w1, hw1, rfl⟩
      rcases List.mem_map.mp (List.mem_filter.mp hw1).1 with ⟨w0, hw0, rfl⟩
      rcases List.mem_map.mp hw0 with ⟨g, _, rfl⟩
      show (0 : ℚ) ≤ (g.incident_count : ℚ)
      positivity
    · rcases hk with hk | hk
      · rcases List.mem_map.mp hk with ⟨w0, hw0, rfl⟩
        rcases List.mem_map.mp hw0 with ⟨w1, hw1, rfl⟩
        rcases List.mem_map.mp hw1 with ⟨g, hg, rfl⟩
        have := (process_wildfire_month_bounds raw g hg).1
        show (1 : ℤ) ≤ (g.month : Int)
        exact_mod_cast this
      · rcases List.mem_map.mp hk with ⟨r0, hr0, rfl⟩
        rcases List.mem_map.mp hr0 with ⟨r1, hr1, rfl⟩
        rcases List.mem_map.mp hr1 with ⟨a, ha, rfl⟩
        rw [hrainEq] at ha
        have := (aggregateRain_month_bounds files pairs a ha).1
        show (1 : ℤ) ≤ (a.month : Int)
        exact_mod_cast this
    · rcases hk with hk | hk
      · rcases List.mem_map.mp hk with ⟨w0, hw0, rfl⟩
        rcases List.mem_map.mp hw0 with ⟨w1, hw1, rfl⟩
        rcases List.mem_map.mp hw1 with ⟨g, hg, rfl⟩
        have := (process_wildfire_month_bounds raw g hg).2
        show (g.month : Int) ≤ 12
        exact_mod_cast this
      · rcases List.mem_map.mp hk with ⟨r0, hr0, rfl⟩
        rcases List.mem_map.mp hr0 with ⟨r1, hr1, rfl⟩
        rcases List.mem_map.mp hr1 with ⟨a, ha, rfl⟩
        rw [hrainEq] at ha
        have := (aggregateRain_month_bounds files pairs a ha).2
        show (a.month : Int) ≤ 12
        exact_mod_cast this
  · intro hacres row hrow
    rcases (mem_merge_datasets _ _ row).mp hrow with ⟨k, _, rfl⟩
    apply List.sum_nonneg
    intro x hx
    rcases List.mem_map.mp hx with ⟨w1, hw1, rfl⟩
    rcases List.mem_map.mp (List.mem_filter.mp hw1).1 with ⟨w0, hw0, rfl⟩
    rcases List.mem_map.mp hw0 with ⟨g, hg, rfl⟩
    exact process_wildfire_acres_nonneg raw hacres g hg
  · intro hprecip row hrow
    rcases (mem_merge_datasets _ _ row).mp hrow with ⟨k, _, rfl⟩
    apply List.sum_nonneg
    intro x hx
    rcases List.mem_map.mp hx with ⟨r1, hr1, rfl⟩
    rcases List.mem_map.mp (List.mem_filter.mp hr1).1 with ⟨r0, hr0, rfl⟩
    rcases List.mem_map.mp hr0 with ⟨a, ha, rfl⟩
    rw [hrainEq] at ha
    exact aggregateRain_precip_nonneg files pairs hprecip a ha

set_option maxHeartbeats 1000000 in
/-- Witness for the amended C9 on the example pipeline instance: the
first merged record satisfies all four invariants. -/
theorem pipeline_merged_invariants_witness :
    0 ≤ (exMerged.get ⟨0, by decide⟩).incident_count ∧
    0 ≤ (exMerged.get ⟨0, by decide⟩).acres_burned ∧
    0 ≤ (exMerged.get ⟨0, by decide⟩).precip_in ∧
    1 ≤ (exMerged.get ⟨0, by decide⟩).month ∧
    (exMerged.get ⟨0, by decide⟩).month ≤ 12 :=
  have h := pipeline_merged_invariants exRaw exMeta exFiles exRain
    (process_rainfall_eq exMeta exFiles [("S1", "Fresno")] (by decide) rfl)
  ⟨(h.1 _ (List.get_mem _ 0 (by decide))).1,
   h.2.1
    (by
      intro rr hrr a ha
      rcases List.mem_singleton.mp hrr with rfl
      have ha2 : some (100 : ℚ) = some a := ha
      injection ha2 with hval
      rw [← hval]
      norm_num)
    _ (List.get_mem _ 0 (by decide)),
   h.2.2
    (by
      intro f hf rr hrr mc hmc v hv
      rcases List.mem_singleton.mp hf with rfl
      rcases List.mem_singleton.mp hrr with rfl
      simp only [monthColumns, List.mem_cons, List.not_mem_nil, or_false] at hmc
      rcases hmc with rfl | rfl | rfl | rfl | rfl | rfl | rfl | rfl | rfl | rfl | rfl | rfl <;>
        simp_all
      rw [← hv]
      norm_num)
    _ (List.get_mem _ 0 (by decide)),
   (h.1 _ (List.get_mem _ 0 (by decide))).2.1,
   (h.1 _ (List.get_mem _ 0 (by decide))).2.2⟩

/-- Claim C6: is false as stated: a group containing a row whose
`incident_name` is missing has `incident_count` smaller than its row
count, because pandas `('incident_name', 'count')` counts non-null
values only.  Here a one-row group gets `incident_count = 0`. -/
theorem wildfire_nameless_row_not_counted :
    ∃ g ∈ process_wildfire_data
        [⟨some "Fresno", some (2020, (6 : Fin 12)), some 100, none⟩],
      g.incident_count = 0 ∧
      ((fireRows [⟨some "Fresno", some (2020, (6 : Fin 12)), some 100, none⟩]).filter
        fun r => fireKey r = ⟨g.county, g.year, g.month⟩).length = 1 :=
  ⟨_, List.get_mem _ 0 (by decide), by decide, by decide⟩

/-- Claim C6: (amended).  For every (county, year, month) group produced by
the wildfire normaliser after explosion and date parsing,
`incident_count` equals the number of rows in that group whose
`incident_name` is present (rows with a missing name are not counted),
and `acres_burned` equals the sum of the group's acres values. -/
theorem wildfire_group_aggregates (raw : List RawIncident) (g : FireAgg)
    (hg : g ∈ process_wildfire_data raw) :
    g.incident_count = (((fireRows raw).filter
      fun r => fireKey r = ⟨g.county, g.year, g.month⟩).filter
      fun r => r.name.isSome).length ∧
    g.acres_burned = (((fireRows raw).filter
      fun r => fireKey r = ⟨g.county, g.year, g.month⟩).map FireRow.acres).sum := by
  rcases List.mem_map.mp hg with ⟨k, _, rfl⟩
  exact ⟨rfl, rfl⟩

/-- Witness for the amended C6: a group holding one named and one
nameless row counts 1 incident while summing both rows' acres. -/
theorem wildfire_group_aggregates_witness :
    ((process_wildfire_data
        [⟨some "Fresno", some (2020, (6 : Fin 12)), some 100, some "A"⟩,
         ⟨some "Fresno", some (2020, (6 : Fin 12)), some 30, none⟩]).get
      ⟨0, by decide⟩).incident_count =
      (((fireRows
        [⟨some "Fresno", some (2020, (6 : Fin 12)), some 100, some "A"⟩,
         ⟨some "Fresno", some (2020, (6 : Fin 12)), some 30, none⟩]).filter
        fun r => fireKey r = ⟨((process_wildfire_data
          [⟨some "Fresno", some (2020, (6 : Fin 12)), some 100, some "A"⟩,
           ⟨some "Fresno", some (2020, (6 : Fin 12)), some 30, none⟩]).get
            ⟨0, by decide⟩).county,
          ((process_wildfire_data
          [⟨some "Fresno", some (2020, (6 : Fin 12)), some 100, some "A"⟩,
           ⟨some "Fresno", some (2020, (6 : Fin 12)), some 30, none⟩]).get
            ⟨0, by decide⟩).year,
          ((process_wildfire_data
          [⟨some "Fresno", some (2020, (6 : Fin 12)), some 100, some "A"⟩,
           ⟨some "Fresno", some (2020, (6 : Fin 12)), some 30, none⟩]).get
            ⟨0, by decide⟩).month⟩).filter
        fun r => r.name.isSome).length :=
  (wildfire_group_aggregates
    [⟨some "Fresno", some (2020, (6 : Fin 12)), some 100, some "A"⟩,
     ⟨some "Fresno", some (2020, (6 : Fin 12)), some 30, none⟩] _
    (List.get_mem _ 0 (by decide))).1
